import Mathlib

/-!
Verification of the PDF extraction service (`src/pdf-service/main.py`, with the
older variant in `src/mock-backend/main.py`).

The extraction endpoint `extract_text_from_pdf` resolves a bearer credential,
fetches the document, checks its size, parses the text layer, and — when the
text layer is too short — falls back to per-page vision recognition
(`extract_text_with_vision`).  External effects (the HTTP fetch, the PDF
parser, page rendering and the vision-recognition backend) are modelled as
explicit function parameters returning `Except`-classified outcomes, so the
control flow of the Python source is embedded directly.
-/

/-- Document metadata as serialized in the response (`main.py` lines 244-249):
each field is the PDF metadata entry defaulted to the empty string. -/
structure DocMetadata where
  title : String
  author : String
  creator : String
  creation_date : String
deriving DecidableEq, Repr

/-- The JSON success payload of `extract_text_from_pdf`
(`src/pdf-service/main.py` lines 238-250). -/
structure ExtractionResult where
  success : Bool
  text : String
  page_count : Nat
  char_count : Nat
  used_vision_ocr : Bool
  metadata : DocMetadata
deriving DecidableEq, Repr

/-- Environment of `extract_text_with_vision` (`src/pdf-service/main.py`
lines 62-146): whether the Azure OpenAI configuration variables are all set
(line 67), the setup steps before the page loop (PyMuPDF import, document
open, client construction — lines 70-88) which may raise, the per-page
rendering steps outside the inner `try` (lines 96-103) which may raise, and
the per-page recognition call (lines 107-135) which may raise or return an
empty/absent message content. -/
structure VisionEnv where
  configured : Bool
  setup : Except String Unit
  render : Nat → Except String Unit
  recognize : Nat → Except String (Option String)

/-- Page marker prepended to a successfully recognized page
(`main.py` line 137): `--- Page {i + 1} ---\n{page_text}`. -/
def pageMarker (i : Nat) (text : String) : String :=
  "--- Page " ++ toString (i + 1) ++ " ---\n" ++ text

/-- Placeholder appended when recognition of a page raises
(`main.py` line 140): `--- Page {i + 1} ---\n[Error extracting text: {e}]`. -/
def pageErrorMarker (i : Nat) (e : String) : String :=
  "--- Page " ++ toString (i + 1) ++ " ---\n[Error extracting text: " ++ e ++ "]"

/-- The page loop of `extract_text_with_vision` (`src/pdf-service/main.py`
lines 92-144), over an explicit list of page indices (the source iterates
`for i in range(max_pages)`).  A rendering failure (lines 96-103, outside the
inner `try`) propagates and aborts the whole run.  A recognition failure
(caught at lines 138-140) appends an error placeholder for that page and
continues.  A recognized text that is `None` or empty is skipped
(`if page_text:` at line 136). -/
def visionLoopGo (render : Nat → Except String Unit)
    (recognize : Nat → Except String (Option String)) :
    List Nat → Except String (List String)
  | [] => Except.ok []
  | i :: rest =>
    match render i with
    | Except.error e => Except.error e
    | Except.ok _ =>
      match recognize i with
      | Except.error e =>
        (visionLoopGo render recognize rest).map (fun ts => pageErrorMarker i e :: ts)
      | Except.ok none => visionLoopGo render recognize rest
      | Except.ok (some t) =>
        if t = "" then visionLoopGo render recognize rest
        else (visionLoopGo render recognize rest).map (fun ts => pageMarker i t :: ts)

/-- Function `extract_text_with_vision` (`src/pdf-service/main.py` lines 62-146):
fails upfront if the Azure OpenAI backend is unconfigured (line 67) or a
setup step raises (lines 70-88); otherwise runs the page loop over
`range(min(page_count, 5))` (lines 81, 92) and joins the collected page
sections with a blank line (line 144). -/
def extract_text_with_vision (env : VisionEnv) (page_count : Nat) : Except String String :=
  if env.configured = false then Except.error "Azure OpenAI not configured for Vision OCR"
  else
    match env.setup with
    | Except.error e => Except.error e
    | Except.ok _ =>
      (visionLoopGo env.render env.recognize (List.range (min page_count 5))).map
        (fun ts => String.intercalate "\n\n" ts)

/-- The page loop of the older `extract_text_with_vision` in
`src/mock-backend/main.py` (lines 335-379): identical to `visionLoopGo`
except that the recognition call is not wrapped in a per-page `try`, so a
recognition failure propagates and aborts the run just like a rendering
failure. -/
def visionLoopGoMock (render : Nat → Except String Unit)
    (recognize : Nat → Except String (Option String)) :
    List Nat → Except String (List String)
  | [] => Except.ok []
  | i :: rest =>
    match render i with
    | Except.error e => Except.error e
    | Except.ok _ =>
      match recognize i with
      | Except.error e => Except.error e
      | Except.ok none => visionLoopGoMock render recognize rest
      | Except.ok (some t) =>
        if t = "" then visionLoopGoMock render recognize rest
        else (visionLoopGoMock render recognize rest).map (fun ts => pageMarker i t :: ts)

/-- Python `str.isspace` membership for the ASCII whitespace characters
stripped by `str.strip()` (`" \t\n\r\x0b\x0c"`). -/
def pyIsSpace (c : Char) : Bool :=
  c = ' ' || c = '\t' || c = '\n' || c = '\r' || c = '\x0b' || c = '\x0c'

/-- Python `str.strip()` with no argument: remove leading and trailing
whitespace (modelled on the code-point sequence, as Python slices do). -/
def pyStrip (s : String) : String :=
  String.mk (((s.data.dropWhile pyIsSpace).reverse.dropWhile pyIsSpace).reverse)

/-- Python `str.startswith(pre)` on the code-point sequence. -/
def pyStartswith (s pre : String) : Bool :=
  pre.data.isPrefixOf s.data

/-- Python slicing `s[n:]` on the code-point sequence. -/
def pySliceFrom (s : String) (n : Nat) : String :=
  String.mk (s.data.drop n)

/-- The joined text-layer output (`src/pdf-service/main.py` lines 220-225):
page texts are collected only when truthy (`if text:` at line 222, so empty
or absent page texts are skipped) and joined with `"\n\n"` (line 225). -/
def textLayerJoin (pages : List String) : String :=
  String.intercalate "\n\n" (pages.filter (fun t => t != ""))

/-- The fallback trigger condition (`src/pdf-service/main.py` line 228):
`len(full_text.strip()) < 50 and page_count > 0`. -/
abbrev visionTrigger (pages : List String) : Prop :=
  (pyStrip (textLayerJoin pages)).length < 50 ∧ 0 < pages.length

/-- The post-parse portion of `extract_text_from_pdf`
(`src/pdf-service/main.py` lines 210-250), taking the per-page text-layer
texts (an empty string standing for a page with no extractable text) and the
already-defaulted metadata.  If the trigger condition holds (line 228) the
vision fallback is invoked (line 231); on its success the vision text
replaces the candidate text and `used_vision_ocr` is set (line 232); on any
vision exception the text-layer result is kept unchanged (lines 233-236). -/
def extract_core (env : VisionEnv) (pages : List String) (metadata : DocMetadata) :
    ExtractionResult :=
  if (pyStrip (textLayerJoin pages)).length < 50 ∧ 0 < pages.length then
    match extract_text_with_vision env pages.length with
    | Except.ok vision_text =>
      { success := true, text := vision_text, page_count := pages.length,
        char_count := vision_text.length, used_vision_ocr := true, metadata := metadata }
    | Except.error _ =>
      { success := true, text := textLayerJoin pages, page_count := pages.length,
        char_count := (textLayerJoin pages).length, used_vision_ocr := false,
        metadata := metadata }
  else
    { success := true, text := textLayerJoin pages, page_count := pages.length,
      char_count := (textLayerJoin pages).length, used_vision_ocr := false,
      metadata := metadata }

/-- Modelled from the spec: the result of an extraction request "with the
fallback disabled" (spec section 8, round-trip property) — the text-layer
result served directly, with `usedVisionFallback` false.  Used as the
comparison point for the refinement claims about abandoned fallbacks. -/
def specDisabledFallbackResult (pages : List String) (metadata : DocMetadata) :
    ExtractionResult :=
  { success := true, text := textLayerJoin pages, page_count := pages.length,
    char_count := (textLayerJoin pages).length, used_vision_ocr := false,
    metadata := metadata }

/-- Outcome of the upstream HTTP GET (`src/pdf-service/main.py` lines
181-188): a response with a status code and a body, a transport timeout
(`httpx.TimeoutException`, line 252), or another transport failure
(`httpx.RequestError`, line 254).  The body is modelled as a string of
bytes. -/
inductive FetchResult where
  | response (status_code : Nat) (content : String)
  | fetchTimeout
  | requestError (msg : String)
deriving DecidableEq, Repr

/-- The `HTTPException` raise sites of `extract_text_from_pdf`
(`src/pdf-service/main.py` lines 175, 191, 193, 195-198, 202-205, 253, 255,
259), one constructor per site, carrying the data interpolated into the
detail message. -/
inductive ExtractError where
  | missingToken
  | upstreamUnauthorized
  | notFound
  | upstreamError (status : Nat)
  | payloadTooLarge (sizeBytes : Nat)
  | timedOut
  | networkError (msg : String)
  | internalError (msg : String)
deriving DecidableEq, Repr

/-- The HTTP status code attached to each raise site. -/
def statusOf : ExtractError → Nat
  | ExtractError.missingToken => 401
  | ExtractError.upstreamUnauthorized => 401
  | ExtractError.notFound => 404
  | ExtractError.upstreamError status => status
  | ExtractError.payloadTooLarge _ => 413
  | ExtractError.timedOut => 504
  | ExtractError.networkError _ => 502
  | ExtractError.internalError _ => 500

/-- Constant `MAX_SIZE_BYTES = MAX_SIZE_MB * 1024 * 1024` with `MAX_SIZE_MB = 10`
(`src/pdf-service/main.py` lines 177-178). -/
def MAX_SIZE_BYTES : Nat := 10 * 1024 * 1024

/-- Python truthiness of an optional string: `None` and `""` are falsy. -/
def pyTruthy : Option String → Bool
  | none => false
  | some s => s != ""

/-- The credential resolution of `extract_text_from_pdf`
(`src/pdf-service/main.py` lines 167-172): if the `Authorization` header is
truthy and starts with `"Bearer "`, the token is the slice after the
7-character prefix; otherwise, if the body `token` field is truthy, it is
used; otherwise no token is resolved. -/
def resolveToken (authorization bodyToken : Option String) : Option String :=
  if pyTruthy authorization && pyStartswith (authorization.getD "") "Bearer " then
    some (pySliceFrom (authorization.getD "") 7)
  else if pyTruthy bodyToken then bodyToken
  else none

/-- The request body `ExtractTextRequest` (`src/pdf-service/main.py` lines
29-31): a URL and a deprecated optional token field. -/
structure ExtractTextRequest where
  url : String
  token : Option String

/-- The part of `extract_text_from_pdf` after a token has been resolved
(`src/pdf-service/main.py` lines 180-259): fetch the document, classify the
response status (lines 190-198), check the size (lines 200-205), parse the
text layer (lines 216-225, with any parser exception mapped to the
generic 500 handler at line 259), and run the fallback policy.  `fetch`
receives the URL and the resolved bearer token (line 185); `parse` returns
the per-page text-layer texts and the defaulted metadata. -/
def afterAuth (env : VisionEnv) (fetch : String → String → FetchResult)
    (parse : String → Except String (List String × DocMetadata))
    (url : String) (token : String) : Except ExtractError ExtractionResult :=
  match fetch url token with
  | FetchResult.fetchTimeout => Except.error ExtractError.timedOut
  | FetchResult.requestError m => Except.error (ExtractError.networkError m)
  | FetchResult.response status content =>
    if status = 401 then Except.error ExtractError.upstreamUnauthorized
    else if status = 404 then Except.error ExtractError.notFound
    else if status ≠ 200 then Except.error (ExtractError.upstreamError status)
    else if content.length > MAX_SIZE_BYTES then
      Except.error (ExtractError.payloadTooLarge content.length)
    else
      match parse content with
      | Except.error m => Except.error (ExtractError.internalError m)
      | Except.ok (pages, meta) => Except.ok (extract_core env pages meta)

/-- Endpoint `extract_text_from_pdf` (`src/pdf-service/main.py` lines 149-259):
resolve the credential (lines 167-172), fail 401 when no truthy token
results (lines 174-175), then proceed to the fetch stage. -/
def extract_text_from_pdf (env : VisionEnv) (fetch : String → String → FetchResult)
    (parse : String → Except String (List String × DocMetadata))
    (request : ExtractTextRequest) (authorization : Option String) :
    Except ExtractError ExtractionResult :=
  match resolveToken authorization request.token with
  | none => Except.error ExtractError.missingToken
  | some token =>
    if token = "" then Except.error ExtractError.missingToken
    else afterAuth env fetch parse request.url token

/-! ### Helper lemmas and concrete environments -/

/-- The vision page loop is compositional over the index list: errors
propagate, and the collected sections concatenate in order. -/
theorem visionLoopGo_append (render : Nat → Except String Unit)
    (recognize : Nat → Except String (Option String)) (xs ys : List Nat) :
    visionLoopGo render recognize (xs ++ ys)
      = (visionLoopGo render recognize xs).bind
          (fun a => (visionLoopGo render recognize ys).map (fun b => a ++ b)) := by
  induction xs with
  | nil =>
    cases hys : visionLoopGo render recognize ys <;>
      simp [visionLoopGo, Except.bind, Except.map, hys]
  | cons i xs ih =>
    simp only [List.cons_append, visionLoopGo, List.append_eq] at *
    cases render i with
    | error e => simp [Except.bind]
    | ok u =>
      cases recognize i with
      | error e =>
        cases hxs : visionLoopGo render recognize xs <;>
          cases hys : visionLoopGo render recognize ys <;>
            simp_all [Except.bind, Except.map]
      | ok o =>
        cases o with
        | none => simpa using ih
        | some t =>
          by_cases ht : t = ""
          · simp only [if_pos ht]
            simpa using ih
          · simp only [if_neg ht]
            cases hxs : visionLoopGo render recognize xs <;>
              cases hys : visionLoopGo render recognize ys <;>
                simp_all [Except.bind, Except.map]

/-- In the mock-backend variant of the page loop, a recognition failure on
the first index aborts the whole run (no placeholder, no later pages). -/
theorem visionLoopGoMock_error_aborts (render : Nat → Except String Unit)
    (recognize : Nat → Except String (Option String)) (k : Nat) (e : String)
    (ys : List Nat) (hrk : render k = Except.ok ())
    (hk : recognize k = Except.error e) :
    visionLoopGoMock render recognize (k :: ys) = Except.error e := by
  simp [visionLoopGoMock, hrk, hk]

/-- Metadata with every field absent (defaulted to the empty string). -/
def meta0 : DocMetadata :=
  { title := "", author := "", creator := "", creation_date := "" }

/-- A fully working vision environment: configured, setup succeeds, every
page renders, and recognition always returns the same non-empty text. -/
def okEnv : VisionEnv :=
  { configured := true, setup := Except.ok (), render := fun _ => Except.ok (),
    recognize := fun _ => Except.ok (some "Recovered page text") }

/-- A vision environment whose backend configuration is missing. -/
def unconfiguredEnv : VisionEnv :=
  { configured := false, setup := Except.ok (), render := fun _ => Except.ok (),
    recognize := fun _ => Except.ok (some "Recovered page text") }

/-- A configured environment in which rendering the first page raises while
recognition of every page would succeed. -/
def renderFailEnv : VisionEnv :=
  { configured := true, setup := Except.ok (),
    render := fun i => if i = 0 then Except.error "render failure" else Except.ok (),
    recognize := fun _ => Except.ok (some "Recovered page text") }

/-- A configured environment in which every page renders and the recognizer
always returns an empty text. -/
def allEmptyEnv : VisionEnv :=
  { configured := true, setup := Except.ok (), render := fun _ => Except.ok (),
    recognize := fun _ => Except.ok (some "") }

/-- A one-page document whose text layer is comfortably above the 50
trimmed-character threshold. -/
def longPages : List String :=
  ["This page has plenty of embedded text layer characters, well over fifty of them in total."]

/-! ### Claims -/

/-- C1: the vision fallback is invoked iff the trimmed joined text-layer
length is below 50 and the page count is positive; when it runs it targets
exactly `min(pageCount, 5)` pages in ascending order; with zero pages it is
never invoked.  "Not invoked" is expressed as the result being independent
of the vision environment and equal to the fallback-disabled result. -/
theorem C1_fallback_trigger_policy (env : VisionEnv) (pages : List String)
    (meta : DocMetadata) :
    (¬ visionTrigger pages →
        extract_core env pages meta = specDisabledFallbackResult pages meta)
    ∧ (pages.length = 0 →
        extract_core env pages meta = specDisabledFallbackResult pages meta)
    ∧ (∀ vt : String, visionTrigger pages →
        extract_text_with_vision env pages.length = Except.ok vt →
        (extract_core env pages meta).used_vision_ocr = true
          ∧ (extract_core env pages meta).text = vt)
    ∧ (env.configured = true → env.setup = Except.ok () →
        extract_text_with_vision env pages.length
          = (visionLoopGo env.render env.recognize (List.range (min pages.length 5))).map
              (fun ts => String.intercalate "\n\n" ts)
          ∧ (List.range (min pages.length 5)).length = min pages.length 5
          ∧ List.Pairwise (· < ·) (List.range (min pages.length 5))) := by
  refine ⟨?_, ?_, ?_, ?_⟩
  · intro h
    unfold extract_core specDisabledFallbackResult
    rw [if_neg h]
  · intro h0
    have h : ¬ visionTrigger pages := by simp [visionTrigger, h0]
    unfold extract_core specDisabledFallbackResult
    rw [if_neg h]
  · intro vt htrig hok
    unfold extract_core
    rw [if_pos htrig, hok]
    exact ⟨rfl, rfl⟩
  · intro hconf hsetup
    refine ⟨?_, List.length_range _, List.pairwise_lt_range _⟩
    simp [extract_text_with_vision, hconf, hsetup]

/-- C1 witness: concrete runs exercising each part of the policy. -/
theorem C1_fallback_trigger_policy_witness :
    (extract_core okEnv longPages meta0 = specDisabledFallbackResult longPages meta0)
    ∧ (extract_core okEnv [] meta0 = specDisabledFallbackResult [] meta0)
    ∧ ((extract_core okEnv ["x"] meta0).used_vision_ocr = true
        ∧ (extract_core okEnv ["x"] meta0).text = pageMarker 0 "Recovered page text")
    ∧ (extract_text_with_vision okEnv 1
          = (visionLoopGo okEnv.render okEnv.recognize (List.range (min 1 5))).map
              (fun ts => String.intercalate "\n\n" ts)
        ∧ (List.range (min 1 5)).length = min 1 5
        ∧ List.Pairwise (· < ·) (List.range (min 1 5))) :=
  ⟨(C1_fallback_trigger_policy okEnv longPages meta0).1 (by decide),
   (C1_fallback_trigger_policy okEnv [] meta0).2.1 rfl,
   (C1_fallback_trigger_policy okEnv ["x"] meta0).2.2.1
     (pageMarker 0 "Recovered page text") (by decide) rfl,
   by
     have h := (C1_fallback_trigger_policy okEnv ["x"] meta0).2.2.2 rfl rfl
     simpa using h⟩

/-- C2 counterexample: in `renderFailEnv` the rendering of page 1 (k = 1 ≤
cap = 2) raises while recognition of every page would succeed; the whole
vision run aborts with the rendering error instead of contributing a
placeholder for page 1 and keeping page 2's result, and the orchestrator
falls back to the (empty) text-layer result with the flag false. -/
theorem C2_render_failure_aborts :
    extract_text_with_vision renderFailEnv 2 = Except.error "render failure"
    ∧ (extract_core renderFailEnv ["", ""] meta0).used_vision_ocr = false
    ∧ (extract_core renderFailEnv ["", ""] meta0).text = "" :=
  ⟨rfl, rfl, rfl⟩

/-- C2 (amended): in the pdf-service page loop, a recognition failure on
page k contributes exactly the placeholder error marker in page k's slot
and leaves the results of the surrounding pages intact and in order;
(rendering failures, by contrast, abort the run — see the counterexample). -/
theorem C2_recognition_error_isolation (render : Nat → Except String Unit)
    (recognize : Nat → Except String (Option String)) (k : Nat) (e : String)
    (xs ys : List Nat) (as bs : List String)
    (hrk : render k = Except.ok ())
    (hk : recognize k = Except.error e)
    (hxs : visionLoopGo render recognize xs = Except.ok as)
    (hys : visionLoopGo render recognize ys = Except.ok bs) :
    visionLoopGo render recognize (xs ++ k :: ys)
      = Except.ok (as ++ pageErrorMarker k e :: bs) := by
  rw [visionLoopGo_append, hxs]
  simp [visionLoopGo, hrk, hk, hys, Except.bind, Except.map]

/-- C2 witness: recognition of page 1 fails between two succeeding pages;
its slot holds the placeholder and pages 0 and 2 keep their results. -/
theorem C2_recognition_error_isolation_witness :
    visionLoopGo (fun _ => Except.ok ())
        (fun i => if i = 1 then Except.error "boom" else Except.ok (some "T"))
        ([0] ++ 1 :: [2])
      = Except.ok ([pageMarker 0 "T"] ++ pageErrorMarker 1 "boom" :: [pageMarker 2 "T"]) :=
  C2_recognition_error_isolation _ _ 1 "boom" [0] [2] _ _ rfl rfl rfl rfl

/-- C3: `used_vision_ocr` is true iff the fallback trigger held and the
vision run returned aggregated output (a recognition placeholder inside
that output is tolerated); it is false when the trigger did not hold or the
vision run raised. -/
theorem C3_used_vision_flag_iff (env : VisionEnv) (pages : List String)
    (meta : DocMetadata) :
    (extract_core env pages meta).used_vision_ocr = true
      ↔ (visionTrigger pages
          ∧ ∃ vt, extract_text_with_vision env pages.length = Except.ok vt) := by
  unfold extract_core
  by_cases h : visionTrigger pages
  · rw [if_pos h]
    cases hv : extract_text_with_vision env pages.length with
    | error e => simp [h, hv]
    | ok vt =>
      simp [hv]
      exact h
  · rw [if_neg h]
    simp [h]

/-- C4: when the vision backend is unconfigured or its setup raises, the
fallback is abandoned: the request still succeeds and returns the original
text-layer result unchanged with the flag false — the same result as a
request with the fallback disabled. -/
theorem C4_unconfigured_fallback_abandoned (env : VisionEnv) (pages : List String)
    (meta : DocMetadata)
    (h : env.configured = false ∨ ∃ e, env.setup = Except.error e) :
    extract_core env pages meta = specDisabledFallbackResult pages meta
    ∧ (extract_core env pages meta).used_vision_ocr = false
    ∧ (extract_core env pages meta).success = true
    ∧ (extract_core env pages meta).text = textLayerJoin pages := by
  have hv : ∃ e, extract_text_with_vision env pages.length = Except.error e := by
    rcases h with hc | ⟨e, hs⟩
    · exact ⟨"Azure OpenAI not configured for Vision OCR",
        by simp [extract_text_with_vision, hc]⟩
    · cases hc2 : env.configured with
      | false => exact ⟨"Azure OpenAI not configured for Vision OCR",
          by simp [extract_text_with_vision, hc2]⟩
      | true => exact ⟨e, by simp [extract_text_with_vision, hc2, hs]⟩
  obtain ⟨e, hv⟩ := hv
  have hmain : extract_core env pages meta = specDisabledFallbackResult pages meta := by
    unfold extract_core specDisabledFallbackResult
    by_cases ht : visionTrigger pages
    · rw [if_pos ht, hv]
    · rw [if_neg ht]
  exact ⟨hmain, by rw [hmain]; rfl, by rw [hmain]; rfl, by rw [hmain]; rfl⟩

/-- C4 witness: a concrete unconfigured environment on a short scanned-like
document returns the empty text-layer result with the flag false. -/
theorem C4_unconfigured_fallback_abandoned_witness :
    extract_core unconfiguredEnv ["", ""] meta0 = specDisabledFallbackResult ["", ""] meta0
    ∧ (extract_core unconfiguredEnv ["", ""] meta0).used_vision_ocr = false
    ∧ (extract_core unconfiguredEnv ["", ""] meta0).success = true
    ∧ (extract_core unconfiguredEnv ["", ""] meta0).text = textLayerJoin ["", ""] :=
  C4_unconfigured_fallback_abandoned unconfiguredEnv ["", ""] meta0 (Or.inl rfl)

/-- A three-page document whose middle page has no extractable text and
whose total text stays above the fallback threshold. -/
def pagesWithEmptyMiddle : List String :=
  ["This first page has plenty of embedded text layer characters in it.", "",
   "Last page."]

/-- C5 counterexample: the code joins only the truthy page texts
(`if text:` before the append), so a document with an empty middle page does
not get a slot for that page; the returned text differs from the join of
all per-page texts including the empty one (which would carry two
consecutive blank-line separators). -/
theorem C5_empty_pages_dropped :
    (extract_core unconfiguredEnv pagesWithEmptyMiddle meta0).text
      ≠ String.intercalate "\n\n" pagesWithEmptyMiddle := by decide

/-- C5 (amended): in the text-layer path, a page with no extractable text
contributes nothing to the join (it is not an error, but it is omitted):
`fullText` is the list of non-empty per-page texts joined with a blank-line
separator, in page order (the kept pages are a sublist of the page
sequence), and `charCount` equals the length of the returned text. -/
theorem C5_text_layer_join (env : VisionEnv) (pages : List String)
    (meta : DocMetadata) (h : ¬ visionTrigger pages) :
    (extract_core env pages meta).text
      = String.intercalate "\n\n" (pages.filter (fun t => t != ""))
    ∧ List.Sublist (pages.filter (fun t => t != "")) pages
    ∧ (extract_core env pages meta).char_count
        = (extract_core env pages meta).text.length := by
  have hmain : extract_core env pages meta = specDisabledFallbackResult pages meta := by
    unfold extract_core specDisabledFallbackResult
    rw [if_neg h]
  exact ⟨by rw [hmain]; rfl, List.filter_sublist _, by rw [hmain]; rfl⟩

/-- C5 witness: the concrete three-page document above. -/
theorem C5_text_layer_join_witness :
    (extract_core unconfiguredEnv pagesWithEmptyMiddle meta0).text
      = String.intercalate "\n\n" (pagesWithEmptyMiddle.filter (fun t => t != ""))
    ∧ List.Sublist (pagesWithEmptyMiddle.filter (fun t => t != "")) pagesWithEmptyMiddle
    ∧ (extract_core unconfiguredEnv pagesWithEmptyMiddle meta0).char_count
        = (extract_core unconfiguredEnv pagesWithEmptyMiddle meta0).text.length :=
  C5_text_layer_join unconfiguredEnv pagesWithEmptyMiddle meta0 (by decide)

/-- C6: the credential is taken from a truthy `Bearer `-prefixed
authorization header first, else from a truthy body token; if the
resolution yields no (or an empty) credential the endpoint fails with 401
for every possible fetch and parse behaviour, i.e. before any network
call. -/
theorem C6_credential_resolution (env : VisionEnv)
    (fetch : String → String → FetchResult)
    (parse : String → Except String (List String × DocMetadata))
    (request : ExtractTextRequest) (authorization : Option String) :
    ((pyTruthy authorization && pyStartswith (authorization.getD "") "Bearer ") = true →
        resolveToken authorization request.token
          = some (pySliceFrom (authorization.getD "") 7))
    ∧ ((pyTruthy authorization && pyStartswith (authorization.getD "") "Bearer ") = false →
        resolveToken authorization request.token
          = if pyTruthy request.token then request.token else none)
    ∧ ((resolveToken authorization request.token).getD "" = "" →
        extract_text_from_pdf env fetch parse request authorization
          = Except.error ExtractError.missingToken)
    ∧ statusOf ExtractError.missingToken = 401 := by
  refine ⟨?_, ?_, ?_, rfl⟩
  · intro h
    simp [resolveToken, h]
  · intro h
    simp [resolveToken, h]
  · intro h
    unfold extract_text_from_pdf
    cases hr : resolveToken authorization request.token with
    | none => rfl
    | some t =>
      rw [hr] at h
      simp only [Option.getD_some] at h
      simp [h]

/-- C6 witness: a Bearer header wins over a body token, a missing header
falls back to the body token, and no credential at all yields 401. -/
theorem C6_credential_resolution_witness :
    resolveToken (some "Bearer headertok") (some "bodytok")
      = some (pySliceFrom "Bearer headertok" 7)
    ∧ resolveToken none (some "bodytok")
        = (if pyTruthy (some "bodytok") then some "bodytok" else none)
    ∧ extract_text_from_pdf unconfiguredEnv (fun _ _ => FetchResult.fetchTimeout)
        (fun _ => Except.ok ([], meta0)) { url := "http://doc", token := none } none
        = Except.error ExtractError.missingToken
    ∧ statusOf ExtractError.missingToken = 401 :=
  ⟨(C6_credential_resolution unconfiguredEnv (fun _ _ => FetchResult.fetchTimeout)
      (fun _ => Except.ok ([], meta0)) { url := "http://doc", token := some "bodytok" }
      (some "Bearer headertok")).1 (by decide),
   (C6_credential_resolution unconfiguredEnv (fun _ _ => FetchResult.fetchTimeout)
      (fun _ => Except.ok ([], meta0)) { url := "http://doc", token := some "bodytok" }
      none).2.1 (by decide),
   (C6_credential_resolution unconfiguredEnv (fun _ _ => FetchResult.fetchTimeout)
      (fun _ => Except.ok ([], meta0)) { url := "http://doc", token := none }
      none).2.2.1 (by decide),
   rfl⟩

/-- C7: a fetched document longer than `MAX_SIZE_BYTES` (10 MiB) makes the
request fail with 413 carrying the observed byte length, for every possible
parser behaviour — i.e. before any parse attempt. -/
theorem C7_payload_too_large (env : VisionEnv)
    (fetch : String → String → FetchResult)
    (parse : String → Except String (List String × DocMetadata))
    (request : ExtractTextRequest) (authorization : Option String)
    (token content : String)
    (ht : resolveToken authorization request.token = some token)
    (ht2 : token ≠ "")
    (hf : fetch request.url token = FetchResult.response 200 content)
    (hsize : content.length > MAX_SIZE_BYTES) :
    extract_text_from_pdf env fetch parse request authorization
      = Except.error (ExtractError.payloadTooLarge content.length)
    ∧ statusOf (ExtractError.payloadTooLarge content.length) = 413 := by
  constructor
  · unfold extract_text_from_pdf
    rw [ht]
    simp only [if_neg ht2]
    unfold afterAuth
    rw [hf]
    simp [hsize]
  · rfl

/-- A body of one byte more than the 10 MiB limit. -/
def oversizedContent : String := String.mk (List.replicate 10485761 'a')

/-- C7 witness: fetching an 10485761-byte document fails with 413 carrying
that size, under a parser that would happily succeed. -/
theorem C7_payload_too_large_witness :
    extract_text_from_pdf unconfiguredEnv
        (fun _ _ => FetchResult.response 200 oversizedContent)
        (fun _ => Except.ok ([], meta0)) { url := "http://doc", token := none }
        (some "Bearer tok")
      = Except.error (ExtractError.payloadTooLarge oversizedContent.length)
    ∧ statusOf (ExtractError.payloadTooLarge oversizedContent.length) = 413 :=
  C7_payload_too_large unconfiguredEnv
    (fun _ _ => FetchResult.response 200 oversizedContent)
    (fun _ => Except.ok ([], meta0)) { url := "http://doc", token := none }
    (some "Bearer tok") "tok" oversizedContent (by decide) (by decide) rfl
    (by
      have hlen : oversizedContent.length = 10485761 := by
        show (List.replicate 10485761 'a').length = 10485761
        exact List.length_replicate _ _
      rw [hlen, MAX_SIZE_BYTES]
      norm_num)

/-- C8 counterexample: a 2xx upstream response other than 200 (here 201)
does not proceed to the size check; it fails as an upstream error carrying
status 201, even though the parser would succeed. -/
theorem C8_non200_2xx_rejected :
    extract_text_from_pdf unconfiguredEnv (fun _ _ => FetchResult.response 201 "%PDF")
        (fun _ => Except.ok ([], meta0)) { url := "http://doc", token := some "tok" } none
      = Except.error (ExtractError.upstreamError 201) := rfl

/-- C8 (amended): the fetch outcome classification — 401 fails as
unauthorized (status 401), 404 as not-found (status 404), any other
non-200 response as an upstream error carrying the upstream status, a
transport timeout as 504, any other transport failure as 502, and a 200
response proceeds to the size check and then the parse. -/
theorem C8_fetch_classification (env : VisionEnv)
    (fetch : String → String → FetchResult)
    (parse : String → Except String (List String × DocMetadata))
    (request : ExtractTextRequest) (authorization : Option String) (token : String)
    (ht : resolveToken authorization request.token = some token)
    (ht2 : token ≠ "") :
    (fetch request.url token = FetchResult.fetchTimeout →
        extract_text_from_pdf env fetch parse request authorization
          = Except.error ExtractError.timedOut
          ∧ statusOf ExtractError.timedOut = 504)
    ∧ (∀ m, fetch request.url token = FetchResult.requestError m →
        extract_text_from_pdf env fetch parse request authorization
          = Except.error (ExtractError.networkError m)
          ∧ statusOf (ExtractError.networkError m) = 502)
    ∧ (∀ c, fetch request.url token = FetchResult.response 401 c →
        extract_text_from_pdf env fetch parse request authorization
          = Except.error ExtractError.upstreamUnauthorized
          ∧ statusOf ExtractError.upstreamUnauthorized = 401)
    ∧ (∀ c, fetch request.url token = FetchResult.response 404 c →
        extract_text_from_pdf env fetch parse request authorization
          = Except.error ExtractError.notFound
          ∧ statusOf ExtractError.notFound = 404)
    ∧ (∀ s c, fetch request.url token = FetchResult.response s c →
        s ≠ 401 → s ≠ 404 → s ≠ 200 →
        extract_text_from_pdf env fetch parse request authorization
          = Except.error (ExtractError.upstreamError s)
          ∧ statusOf (ExtractError.upstreamError s) = s)
    ∧ (∀ c, fetch request.url token = FetchResult.response 200 c →
        extract_text_from_pdf env fetch parse request authorization
          = if c.length > MAX_SIZE_BYTES then
              Except.error (ExtractError.payloadTooLarge c.length)
            else
              match parse c with
              | Except.error m => Except.error (ExtractError.internalError m)
              | Except.ok (pages, meta) => Except.ok (extract_core env pages meta)) := by
  have hbase : extract_text_from_pdf env fetch parse request authorization
      = afterAuth env fetch parse request.url token := by
    unfold extract_text_from_pdf
    rw [ht]
    simp only [if_neg ht2]
  refine ⟨?_, ?_, ?_, ?_, ?_, ?_⟩
  · intro hf
    rw [hbase]
    unfold afterAuth
    rw [hf]
    exact ⟨rfl, rfl⟩
  · intro m hf
    rw [hbase]
    unfold afterAuth
    rw [hf]
    exact ⟨rfl, rfl⟩
  · intro c hf
    rw [hbase]
    unfold afterAuth
    rw [hf]
    exact ⟨rfl, rfl⟩
  · intro c hf
    rw [hbase]
    unfold afterAuth
    rw [hf]
    exact ⟨rfl, rfl⟩
  · intro s c hf h401 h404 h200
    rw [hbase]
    unfold afterAuth
    rw [hf]
    dsimp only
    rw [if_neg h401, if_neg h404, if_pos h200]
    exact ⟨rfl, rfl⟩
  · intro c hf
    rw [hbase]
    unfold afterAuth
    rw [hf]
    dsimp only
    norm_num

/-- C8 witness: each fetch outcome at a concrete request, with the body
token supplying the credential. -/
theorem C8_fetch_classification_witness :
    (extract_text_from_pdf unconfiguredEnv (fun _ _ => FetchResult.fetchTimeout)
        (fun _ => Except.ok ([], meta0)) { url := "http://doc", token := some "tok" } none
      = Except.error ExtractError.timedOut ∧ statusOf ExtractError.timedOut = 504)
    ∧ (extract_text_from_pdf unconfiguredEnv
          (fun _ _ => FetchResult.requestError "connection reset")
          (fun _ => Except.ok ([], meta0)) { url := "http://doc", token := some "tok" } none
        = Except.error (ExtractError.networkError "connection reset")
        ∧ statusOf (ExtractError.networkError "connection reset") = 502)
    ∧ (extract_text_from_pdf unconfiguredEnv (fun _ _ => FetchResult.response 401 "")
          (fun _ => Except.ok ([], meta0)) { url := "http://doc", token := some "tok" } none
        = Except.error ExtractError.upstreamUnauthorized
        ∧ statusOf ExtractError.upstreamUnauthorized = 401)
    ∧ (extract_text_from_pdf unconfiguredEnv (fun _ _ => FetchResult.response 404 "")
          (fun _ => Except.ok ([], meta0)) { url := "http://doc", token := some "tok" } none
        = Except.error ExtractError.notFound ∧ statusOf ExtractError.notFound = 404)
    ∧ (extract_text_from_pdf unconfiguredEnv (fun _ _ => FetchResult.response 500 "")
          (fun _ => Except.ok ([], meta0)) { url := "http://doc", token := some "tok" } none
        = Except.error (ExtractError.upstreamError 500)
        ∧ statusOf (ExtractError.upstreamError 500) = 500)
    ∧ (extract_text_from_pdf unconfiguredEnv (fun _ _ => FetchResult.response 200 "%PDF")
          (fun _ => Except.ok ([], meta0)) { url := "http://doc", token := some "tok" } none
        = if "%PDF".length > MAX_SIZE_BYTES then
            Except.error (ExtractError.payloadTooLarge "%PDF".length)
          else
            match (fun _ => Except.ok ([], meta0) :
                String → Except String (List String × DocMetadata)) "%PDF" with
            | Except.error m => Except.error (ExtractError.internalError m)
            | Except.ok (pages, meta) =>
              Except.ok (extract_core unconfiguredEnv pages meta)) :=
  ⟨(C8_fetch_classification unconfiguredEnv (fun _ _ => FetchResult.fetchTimeout)
      (fun _ => Except.ok ([], meta0)) { url := "http://doc", token := some "tok" } none
      "tok" rfl (by decide)).1 rfl,
   (C8_fetch_classification unconfiguredEnv (fun _ _ => FetchResult.requestError "connection reset")
      (fun _ => Except.ok ([], meta0)) { url := "http://doc", token := some "tok" } none
      "tok" rfl (by decide)).2.1 "connection reset" rfl,
   (C8_fetch_classification unconfiguredEnv (fun _ _ => FetchResult.response 401 "")
      (fun _ => Except.ok ([], meta0)) { url := "http://doc", token := some "tok" } none
      "tok" rfl (by decide)).2.2.1 "" rfl,
   (C8_fetch_classification unconfiguredEnv (fun _ _ => FetchResult.response 404 "")
      (fun _ => Except.ok ([], meta0)) { url := "http://doc", token := some "tok" } none
      "tok" rfl (by decide)).2.2.2.1 "" rfl,
   (C8_fetch_classification unconfiguredEnv (fun _ _ => FetchResult.response 500 "")
      (fun _ => Except.ok ([], meta0)) { url := "http://doc", token := some "tok" } none
      "tok" rfl (by decide)).2.2.2.2.1 500 "" rfl (by decide) (by decide) (by decide),
   (C8_fetch_classification unconfiguredEnv (fun _ _ => FetchResult.response 200 "%PDF")
      (fun _ => Except.ok ([], meta0)) { url := "http://doc", token := some "tok" } none
      "tok" rfl (by decide)).2.2.2.2.2 "%PDF" rfl⟩

/-- C9: a page whose recognition returns absent (`None`) or empty text
contributes neither a page marker nor a slot to the vision output — the
loop result over the index list with that page equals the result without
it; and a fully successful fallback over `min(2, 5) = 2` such pages yields
an aggregated text with zero page sections. -/
theorem C9_empty_recognition_no_slot (render : Nat → Except String Unit)
    (recognize : Nat → Except String (Option String)) (k : Nat) (xs ys : List Nat)
    (hrk : render k = Except.ok ())
    (hk : recognize k = Except.ok none ∨ recognize k = Except.ok (some "")) :
    visionLoopGo render recognize (xs ++ k :: ys)
      = visionLoopGo render recognize (xs ++ ys)
    ∧ extract_text_with_vision allEmptyEnv 2 = Except.ok "" := by
  constructor
  · have hky : visionLoopGo render recognize (k :: ys)
        = visionLoopGo render recognize ys := by
      rcases hk with hk | hk <;> simp [visionLoopGo, hrk, hk]
    rw [visionLoopGo_append, visionLoopGo_append, hky]
  · rfl

/-- C9 witness: page 1's recognizer output is absent between two recognized
pages; the run over pages 0,1,2 equals the run over pages 0,2. -/
theorem C9_empty_recognition_no_slot_witness :
    visionLoopGo (fun _ => Except.ok ())
        (fun i => if i = 1 then Except.ok none else Except.ok (some "T"))
        ([0] ++ 1 :: [2])
      = visionLoopGo (fun _ => Except.ok ())
          (fun i => if i = 1 then Except.ok none else Except.ok (some "T"))
          ([0] ++ [2])
    ∧ extract_text_with_vision allEmptyEnv 2 = Except.ok "" :=
  C9_empty_recognition_no_slot (fun _ => Except.ok ())
    (fun i => if i = 1 then Except.ok none else Except.ok (some "T"))
    1 [0] [2] rfl (Or.inl rfl)

/-- C10: an authorization header that does not start with `Bearer ` is
ignored in favour of the body token, while a `Bearer `-prefixed header
resolves to — and the fetch stage receives — exactly the substring after
the 7-character prefix. -/
theorem C10_bearer_prefix_handling (env : VisionEnv)
    (fetch : String → String → FetchResult)
    (parse : String → Except String (List String × DocMetadata))
    (request : ExtractTextRequest) (a : String) :
    (pyTruthy (some a) = true → pyStartswith a "Bearer " = false →
        resolveToken (some a) request.token
          = if pyTruthy request.token then request.token else none)
    ∧ (pyTruthy (some a) = true → pyStartswith a "Bearer " = true →
        resolveToken (some a) request.token = some (pySliceFrom a 7))
    ∧ (∀ r : String, resolveToken (some ("Bearer " ++ r)) request.token = some r)
    ∧ (∀ r : String, r ≠ "" →
        extract_text_from_pdf env fetch parse request (some ("Bearer " ++ r))
          = afterAuth env fetch parse request.url r) := by
  have hres : ∀ r : String, resolveToken (some ("Bearer " ++ r)) request.token = some r := by
    intro r
    have hne : ("Bearer " ++ r) ≠ "" := by
      intro hcon
      have := congrArg String.data hcon
      simp [String.data_append] at this
    have hpre : pyStartswith ("Bearer " ++ r) "Bearer " = true := by
      unfold pyStartswith
      rw [String.data_append]
      rw [List.isPrefixOf_iff_prefix]
      exact List.prefix_append _ _
    have hslice : pySliceFrom ("Bearer " ++ r) 7 = r := by
      unfold pySliceFrom
      rw [String.data_append]
      have h7 : "Bearer ".data.length = 7 := rfl
      rw [← h7, List.drop_left]
    unfold resolveToken
    have hcond : (pyTruthy (some ("Bearer " ++ r))
        && pyStartswith ((some ("Bearer " ++ r)).getD "") "Bearer ") = true := by
      simp only [Option.getD_some, pyTruthy, hpre, Bool.and_true]
      simpa using hne
    rw [if_pos hcond, Option.getD_some, hslice]
  refine ⟨?_, ?_, hres, ?_⟩
  · intro htr hpre
    simp [resolveToken, htr, hpre]
  · intro htr hpre
    simp [resolveToken, htr, hpre]
  · intro r hr
    unfold extract_text_from_pdf
    rw [hres r]
    simp only [if_neg hr]

/-- C10 witness: a `Basic` header is ignored for the body token; a
`Bearer abc` header resolves to `abc` and the fetch stage is entered with
exactly `abc`. -/
theorem C10_bearer_prefix_handling_witness :
    (resolveToken (some "Basic abc") (some "bodytok")
      = if pyTruthy (some "bodytok") then some "bodytok" else none)
    ∧ (resolveToken (some "Bearer abc") (some "bodytok")
        = some (pySliceFrom "Bearer abc" 7))
    ∧ (resolveToken (some ("Bearer " ++ "abc")) none = some "abc")
    ∧ (extract_text_from_pdf unconfiguredEnv (fun _ _ => FetchResult.fetchTimeout)
          (fun _ => Except.ok ([], meta0)) { url := "http://doc", token := none }
          (some ("Bearer " ++ "abc"))
        = afterAuth unconfiguredEnv (fun _ _ => FetchResult.fetchTimeout)
            (fun _ => Except.ok ([], meta0)) "http://doc" "abc") :=
  ⟨(C10_bearer_prefix_handling unconfiguredEnv (fun _ _ => FetchResult.fetchTimeout)
      (fun _ => Except.ok ([], meta0)) { url := "http://doc", token := some "bodytok" }
      "Basic abc").1 (by decide) (by decide),
   (C10_bearer_prefix_handling unconfiguredEnv (fun _ _ => FetchResult.fetchTimeout)
      (fun _ => Except.ok ([], meta0)) { url := "http://doc", token := some "bodytok" }
      "Bearer abc").2.1 (by decide) (by decide),
   (C10_bearer_prefix_handling unconfiguredEnv (fun _ _ => FetchResult.fetchTimeout)
      (fun _ => Except.ok ([], meta0)) { url := "http://doc", token := none }
      "Bearer abc").2.2.1 "abc",
   (C10_bearer_prefix_handling unconfiguredEnv (fun _ _ => FetchResult.fetchTimeout)
      (fun _ => Except.ok ([], meta0)) { url := "http://doc", token := none }
      "Bearer abc").2.2.2 "abc" (by decide)⟩
